import Mathlib

/-!
Shallow embedding of `NotificationsEmailProcessor`
(`src/plugins/notifications-backend-module-email/src/processor/NotificationsEmailProcessor.ts`).

Data model: notifications carry an `id`, a `user` reference that is a string
or null (modelled as `Option String`, `none` = null), and a payload with a
title and optional description and link.  JavaScript truthiness of an
optional string (`undefined` and `""` are falsy) is modelled by `strTruthy`.

Effects are made explicit: the cache is a list of keyed entries with expiry
times threaded through resolution, the catalog is a pure lookup structure,
credential acquisition and configuration lookups that can throw are
`Except String`, and the mail transport is a function from mail options to
a per-send outcome.  The p-throttle rate limiter used by `sendMails` is
embedded as its windowed-delay state machine, producing the scheduled send
time of each mail in a batch submitted at a single instant.
-/

namespace NotificationsEmail

/-- Notification payload: `{title: string, description?: string, link?: string}`. -/
structure NotificationPayload where
  title : String
  description : Option String
  link : Option String
deriving DecidableEq, Repr

/-- `Notification` from `@backstage/plugin-notifications-common`: the `user`
field has type `string | null`; `none` models null. -/
structure Notification where
  id : String
  user : Option String
  payload : NotificationPayload
deriving DecidableEq, Repr

/-- The recipients discriminator of `NotificationSendOptions.recipients.type`. -/
inductive RecipientsType where
  | broadcast
  | entity
deriving DecidableEq, Repr

/-- The part of `NotificationSendOptions` read by the processor. -/
structure SendOptions where
  recipientsType : RecipientsType
deriving DecidableEq, Repr

/-- JavaScript truthiness of a `string | undefined` value: truthy iff defined
and non-empty. -/
def strTruthy : Option String → Bool
  | none => false
  | some s => s ≠ ""

/-- `spec.profile` of a catalog user entity. -/
structure UserProfile where
  email : Option String
deriving DecidableEq, Repr

/-- The `spec` of a catalog user entity. -/
structure UserEntitySpec where
  profile : Option UserProfile
deriving DecidableEq, Repr

/-- A catalog user entity, with only the field the processor reads. -/
structure UserEntity where
  spec : UserEntitySpec
deriving DecidableEq, Repr

/-- The catalog client as seen by the processor: lookup of one entity by
reference, and the result list of the broadcast query for user entities whose
profile email exists. -/
structure Catalog where
  getEntityByRef : String → Option UserEntity
  usersWithEmail : List UserEntity

/-- One cache entry: key, value (an email list) and absolute expiry time. -/
structure CacheEntry where
  key : String
  value : List String
  expiry : Nat
deriving DecidableEq, Repr

/-- The cache content; entries are prepended, lookup takes the first live hit. -/
abbrev CacheState := List CacheEntry

/-- `cache.get(key)` at time `now`: first unexpired entry for the key. -/
def cacheGet (c : CacheState) (key : String) (now : Nat) : Option (List String) :=
  match c.find? (fun e => e.key == key && decide (now < e.expiry)) with
  | some e => some e.value
  | none => none

/-- `cache.set(key, value, \x7bttl\x7d)` at time `now`. -/
def cacheSet (c : CacheState) (key : String) (value : List String) (ttl now : Nat) :
    CacheState :=
  ⟨key, value, now + ttl⟩ :: c

/-- `this.cache?.get(...)`: the cache service is optional; absent cache always
misses. -/
def ocacheGet (c : Option CacheState) (key : String) (now : Nat) : Option (List String) :=
  c.bind fun cs => cacheGet cs key now

/-- `this.cache?.set(...)`: a no-op when no cache service was supplied. -/
def ocacheSet (c : Option CacheState) (key : String) (value : List String) (ttl now : Nat) :
    Option CacheState :=
  c.map fun cs => cacheSet cs key value ttl now

/-- The `broadcastConfig` section: `receiver` read with `getString` (throws
when the key is missing), `receiverEmails` read with
`getOptionalStringArray`. -/
structure BroadcastConfig where
  receiver : Option String
  receiverEmails : Option (List String)
deriving DecidableEq, Repr

/-- The optional template renderer extension: each accessor may be absent. -/
structure NotificationTemplateRenderer where
  getSubject : Option (Notification → String)
  getHtml : Option (Notification → String)
  getText : Option (Notification → String)

/-- Default `concurrencyLimit` from the constructor. -/
def defaultConcurrencyLimit : Nat := 2

/-- Default `throttleInterval` in milliseconds from the constructor. -/
def defaultThrottleInterval : Nat := 100

/-- Default `cache.ttl` in milliseconds from the constructor. -/
def defaultCacheTtl : Nat := 3600000

/-- The processor's configuration-derived fields and the optional template
renderer, as set by the constructor. -/
structure Processor where
  sender : String
  replyTo : Option String
  concurrencyLimit : Nat := defaultConcurrencyLimit
  throttleInterval : Nat := defaultThrottleInterval
  cacheTtl : Nat := defaultCacheTtl
  broadcastConfig : Option BroadcastConfig
  templateRenderer : Option NotificationTemplateRenderer

/-- `Mail.Options` as built by the processor: sender, subject, optional html
and text bodies, optional reply-to, and the per-recipient `to` address. -/
structure MailOptions where
  sender : String
  subject : String
  html : Option String
  text : Option String
  replyTo : Option String
  toAddr : Option String
deriving DecidableEq, Repr

/-- `contentParts` of `sendPlainEmail`: the description then the link, each
pushed only when truthy. -/
def contentParts (p : NotificationPayload) : List String :=
  (if strTruthy p.description then [p.description.getD ""] else []) ++
    (if strTruthy p.link then [p.link.getD ""] else [])

/-- The mail options built by `sendPlainEmail` (before the per-recipient `to`
is substituted). -/
def plainMailOptions (proc : Processor) (n : Notification) : MailOptions :=
  { sender := proc.sender
    subject := n.payload.title
    html := some ("<p>" ++ String.intercalate "<br/>" (contentParts n.payload) ++ "</p>")
    text := some (String.intercalate "\n\n" (contentParts n.payload))
    replyTo := proc.replyTo
    toAddr := none }

/-- The mail options built by `sendTemplateEmail`:
`subject: this.templateRenderer?.getSubject?.(notification) ?? notification.payload.title`,
`html: this.templateRenderer?.getHtml?.(notification)`,
`text: this.templateRenderer?.getText?.(notification)`. -/
def templateMailOptions (proc : Processor) (n : Notification) : MailOptions :=
  { sender := proc.sender
    subject :=
      match proc.templateRenderer with
      | none => n.payload.title
      | some r =>
        match r.getSubject with
        | none => n.payload.title
        | some f => f n
    html := proc.templateRenderer.bind fun r => r.getHtml.map fun f => f n
    text := proc.templateRenderer.bind fun r => r.getText.map fun f => f n
    replyTo := proc.replyTo
    toAddr := none }

/-- lodash `compact` applied to a list of possibly-undefined strings: removes
falsy elements (`undefined` and the empty string). -/
def compact (l : List (Option String)) : List String :=
  l.filterMap fun o =>
    match o with
    | some s => if s = "" then none else some s
    | none => none

/-- Inner worker for `dedupFirst`, carrying the set of elements already seen. -/
def dedupFirstGo : List (Option String) → List (Option String) → List (Option String)
  | [], _ => []
  | a :: l, seen => if a ∈ seen then dedupFirstGo l seen else a :: dedupFirstGo l (a :: seen)

/-- JavaScript `[...new Set(xs)]`: deduplication keeping first occurrences. -/
def dedupFirst (l : List (Option String)) : List (Option String) :=
  dedupFirstGo l []

/-- The fallible catalog client: lookup of one entity by reference, and the
broadcast query for user entities whose profile email exists; either call may
fail (directory failure). -/
structure FallibleCatalog where
  getEntityByRef : String → Except String (Option UserEntity)
  usersWithEmail : Except String (List UserEntity)

/-- The observable result of one recipient resolution: the returned email
list, the cache state afterwards, and the number of directory queries made. -/
structure ResolveOut where
  emails : List String
  cache : Option CacheState
  directoryQueries : Nat
deriving DecidableEq, Repr

/-- The email list `getUserEmail` derives from a fetched entity:
`if (entity)` then push `userEntity.spec.profile?.email` when truthy. -/
def entityEmails : Option UserEntity → List String
  | none => []
  | some e =>
    match e.spec.profile with
    | none => []
    | some profile =>
      match profile.email with
      | none => []
      | some email => if email = "" then [] else [email]

/-- `getUserEmail(entityRef)`: consult the cache under
`user-emails:` ++ entityRef; on miss, acquire a credential (`auth`), fetch the
entity, extract its profile email, write the result through to the cache with
the configured TTL and return it. -/
def getUserEmail (proc : Processor) (auth : Except String String)
    (catalog : FallibleCatalog) (cache : Option CacheState) (entityRef : String)
    (now : Nat) : Except String ResolveOut :=
  match ocacheGet cache ("user-emails:" ++ entityRef) now with
  | some cached => .ok ⟨cached, cache, 0⟩
  | none =>
    match auth with
    | .error e => .error e
    | .ok _token =>
      match catalog.getEntityByRef entityRef with
      | .error e => .error e
      | .ok entity =>
        let ret := entityEmails entity
        .ok ⟨ret, ocacheSet cache ("user-emails:" ++ entityRef) ret proc.cacheTtl now, 1⟩

/-- The emails derived from the broadcast directory query:
dedup the mapped `spec.profile?.email` fields, then `compact`. -/
def broadcastDerivedEmails (entities : List UserEntity) : List String :=
  compact (dedupFirst (entities.map fun e => e.spec.profile.bind fun p => p.email))

/-- `getBroadcastEmails()`: empty when no `broadcastConfig` section exists;
otherwise dispatch on the required `receiver` key (`getString` throws when it
is missing): `none` → empty, `config` → the configured list, `users` → cached
or freshly queried directory emails, anything else → error. -/
def getBroadcastEmails (proc : Processor) (auth : Except String String)
    (catalog : FallibleCatalog) (cache : Option CacheState) (now : Nat) :
    Except String ResolveOut :=
  match proc.broadcastConfig with
  | none => .ok ⟨[], cache, 0⟩
  | some bc =>
    match bc.receiver with
    | none => .error "Missing required config value at broadcastConfig.receiver"
    | some receiver =>
      if receiver = "none" then .ok ⟨[], cache, 0⟩
      else if receiver = "config" then .ok ⟨bc.receiverEmails.getD [], cache, 0⟩
      else if receiver = "users" then
        match ocacheGet cache "user-emails:all" now with
        | some cached => .ok ⟨cached, cache, 0⟩
        | none =>
          match auth with
          | .error e => .error e
          | .ok _token =>
            match catalog.usersWithEmail with
            | .error e => .error e
            | .ok entities =>
              let ret := broadcastDerivedEmails entities
              .ok ⟨ret, ocacheSet cache "user-emails:all" ret proc.cacheTtl now, 1⟩
      else .error ("Unsupported broadcast receiver: " ++ receiver)

/-- `getRecipientEmails(notification, options)`:
`if (options.recipients.type === broadcast || notification.user === null)`
take the broadcast path, else resolve the user reference. -/
def getRecipientEmails (proc : Processor) (auth : Except String String)
    (catalog : FallibleCatalog) (cache : Option CacheState) (n : Notification)
    (o : SendOptions) (now : Nat) : Except String ResolveOut :=
  match o.recipientsType, n.user with
  | RecipientsType.broadcast, _ => getBroadcastEmails proc auth catalog cache now
  | RecipientsType.entity, none => getBroadcastEmails proc auth catalog cache now
  | RecipientsType.entity, some u => getUserEmail proc auth catalog cache u now

/-- p-throttle internal state in its default (windowed, non-strict) mode. -/
structure ThrottleState where
  currentTick : Nat
  activeCount : Nat
deriving DecidableEq, Repr

/-- One step of p-throttle's windowed delay computation at time `now`: the
delay before the wrapped call runs, and the new limiter state. -/
def windowedDelay (limit interval : Nat) (now : Nat) (s : ThrottleState) :
    Nat × ThrottleState :=
  if interval < now - s.currentTick then
    (0, ⟨now, 1⟩)
  else if s.activeCount < limit then
    (s.currentTick - now, ⟨s.currentTick, s.activeCount + 1⟩)
  else
    (s.currentTick + interval - now, ⟨s.currentTick + interval, 1⟩)

/-- Scheduled run times of a batch of calls submitted at one instant `t0`
through a single p-throttle limiter: call number `k` runs at `t0 +` its
computed delay. -/
def throttleTimes (limit interval t0 : Nat) : Nat → ThrottleState → List Nat
  | 0, _ => []
  | Nat.succ n, s =>
    let d := windowedDelay limit interval t0 s
    (t0 + d.1) :: throttleTimes limit interval t0 n d.2

/-- The transport capability: `transporter.sendMail(options)` succeeds or
throws. -/
abbrev Transport := MailOptions → Except String Unit

/-- The observable outcome of a dispatch: every attempted send with its
scheduled time and per-recipient options, plus the error log lines. -/
structure SendOutcome where
  attempted : List (Nat × MailOptions)
  logs : List String
deriving DecidableEq, Repr

/-- `sendMail(options)`: one send attempt; a transport error is caught and
logged with the failing address, never rethrown. -/
def sendMail (transport : Transport) (options : MailOptions) : List String :=
  match transport options with
  | .ok _ => []
  | .error e =>
    ["Failed to send email to " ++ options.toAddr.getD "undefined" ++ ": " ++ e]

/-- `sendMails(options, emails)`: build a fresh p-throttle limiter
(`limit = concurrencyLimit`, `interval = throttleInterval`), clone the options
per recipient varying only `to`, submit every clone at `t0`, and await all
attempts; per-send failures surface only as logs. -/
def sendMails (proc : Processor) (transport : Transport) (options : MailOptions)
    (emails : List String) (t0 : Nat) : SendOutcome :=
  let times :=
    throttleTimes proc.concurrencyLimit proc.throttleInterval t0 emails.length ⟨0, 0⟩
  let opts := emails.map fun email => { options with toAddr := some email }
  { attempted := times.zip opts
    logs := (opts.map (sendMail transport)).flatten }

/-- `sendPlainEmail(notification, emails)`. -/
def sendPlainEmail (proc : Processor) (transport : Transport) (n : Notification)
    (emails : List String) (t0 : Nat) : SendOutcome :=
  sendMails proc transport (plainMailOptions proc n) emails t0

/-- `sendTemplateEmail(notification, emails)`. -/
def sendTemplateEmail (proc : Processor) (transport : Transport) (n : Notification)
    (emails : List String) (t0 : Nat) : SendOutcome :=
  sendMails proc transport (templateMailOptions proc n) emails t0

/-- The observable behaviour of one `postProcess` call after the transport is
ready: the dispatch outcome, the error and info log lines, the resulting
cache state and the number of directory queries.  `postProcess` itself
returns normally in every case. -/
structure PostProcessOut where
  outcome : SendOutcome
  errorLogs : List String
  infoLogs : List String
  cache : Option CacheState
  directoryQueries : Nat
deriving DecidableEq, Repr

/-- `postProcess(notification, options)`: resolve recipients (a resolution
failure is caught and logged, ending the call); skip with an info log when the
resolved set is empty; otherwise dispatch with the plain strategy when no
template renderer was supplied and the template strategy when one was. -/
def postProcess (proc : Processor) (auth : Except String String)
    (catalog : FallibleCatalog) (transport : Transport) (cache : Option CacheState)
    (n : Notification) (o : SendOptions) (now t0 : Nat) : PostProcessOut :=
  match getRecipientEmails proc auth catalog cache n o now with
  | .error e =>
    { outcome := ⟨[], []⟩
      errorLogs := ["Failed to resolve recipient emails: " ++ e]
      infoLogs := []
      cache := cache
      directoryQueries := 0 }
  | .ok r =>
    if r.emails.length = 0 then
      { outcome := ⟨[], []⟩
        errorLogs := []
        infoLogs := ["No email recipients found for notification: " ++ n.id ++ ", skipping"]
        cache := r.cache
        directoryQueries := r.directoryQueries }
    else
      match proc.templateRenderer with
      | none =>
        { outcome := sendPlainEmail proc transport n r.emails t0
          errorLogs := []
          infoLogs := []
          cache := r.cache
          directoryQueries := r.directoryQueries }
      | some _ =>
        { outcome := sendTemplateEmail proc transport n r.emails t0
          errorLogs := []
          infoLogs := []
          cache := r.cache
          directoryQueries := r.directoryQueries }

/-! Concrete sample inputs used to exercise the model at specific points. -/

/-- A processor with no broadcast section and no template renderer. -/
def procPlain : Processor :=
  { sender := "noreply@example.com", replyTo := none,
    broadcastConfig := none, templateRenderer := none }

/-- A processor whose broadcast receiver mode is `users`. -/
def procBroadcastUsers : Processor :=
  { procPlain with broadcastConfig := some ⟨some "users", none⟩ }

/-- A processor whose broadcast section exists but omits the `receiver` key. -/
def procBroadcastNoReceiver : Processor :=
  { procPlain with broadcastConfig := some ⟨none, some ["a@example.com"]⟩ }

/-- A payload with title, description and link all set. -/
def payloadTDL : NotificationPayload := ⟨"T", some "D", some "L"⟩

/-- A payload with only a title. -/
def payloadTitleOnly : NotificationPayload := ⟨"T", none, none⟩

/-- A targeted notification with the full payload. -/
def notifTDL : Notification := ⟨"n1", some "user:default/alice", payloadTDL⟩

/-- A targeted notification with only a title. -/
def notifTitleOnly : Notification := ⟨"n2", some "user:default/alice", payloadTitleOnly⟩

/-- A template renderer providing only the HTML accessor. -/
def rendererHtmlOnly : NotificationTemplateRenderer :=
  ⟨none, some (fun n => "<b>" ++ n.payload.title ++ "</b>"), none⟩

/-- A template renderer providing no accessor at all. -/
def rendererEmpty : NotificationTemplateRenderer := ⟨none, none, none⟩

/-- `procPlain` plus the HTML-only template renderer. -/
def procTemplate : Processor := { procPlain with templateRenderer := some rendererHtmlOnly }

/-- `procPlain` plus the accessor-less template renderer. -/
def procTemplateEmpty : Processor :=
  { procPlain with templateRenderer := some rendererEmpty }

/-- A catalog where `user:default/alice` exists without a profile email and the
broadcast user query returns one entity with an email. -/
def catalogSample : FallibleCatalog :=
  ⟨fun r => if r = "user:default/alice" then .ok (some ⟨⟨some ⟨none⟩⟩⟩) else .ok none,
   .ok [⟨⟨some ⟨some "a@example.com"⟩⟩⟩]⟩

/-- Successful credential acquisition. -/
def authOk : Except String String := .ok "token"

/-- Failing credential acquisition. -/
def authFail : Except String String := .error "credential failure"

/-- A transport that accepts every mail. -/
def transportOk : Transport := fun _ => .ok ()

/-- A transport that rejects every mail. -/
def transportFail : Transport := fun _ => .error "connection refused"

/-- A bare mail-options value for dispatch samples. -/
def mailW : MailOptions := ⟨"noreply@example.com", "S", none, none, none, none⟩

/-! Helper lemmas shared by the claim theorems. -/

theorem throttleTimes_length (limit interval t0 : Nat) :
    ∀ (n : Nat) (s : ThrottleState), (throttleTimes limit interval t0 n s).length = n := by
  intro n
  induction n with
  | zero => intro s; rfl
  | succ k ih => intro s; simp [throttleTimes, ih]

/-- If a call of an earlier tick group lies inside the window starting at `a`,
every call of a later tick group lies at or beyond the window's end. -/
theorem window_tick_aux (interval a t0 x y : Nat) (hxy : x < y)
    (hx1 : a ≤ t0 + interval * x) : a + interval ≤ t0 + interval * y := by
  have h1 : interval * (x + 1) ≤ interval * y := Nat.mul_le_mul_left interval hxy
  rw [Nat.mul_add, Nat.mul_one] at h1
  calc a + interval ≤ t0 + interval * x + interval := Nat.add_le_add_right hx1 _
    _ = t0 + (interval * x + interval) := by rw [Nat.add_assoc]
    _ ≤ t0 + interval * y := Nat.add_le_add_left h1 _

/-- Two scheduled times inside one window of length `interval` belong to the
same tick group. -/
theorem window_same_tick (interval a t0 x y : Nat)
    (hx1 : a ≤ t0 + interval * x) (hx2 : t0 + interval * x < a + interval)
    (hy1 : a ≤ t0 + interval * y) (hy2 : t0 + interval * y < a + interval) :
    x = y := by
  rcases Nat.lt_trichotomy x y with h | h | h
  · exact absurd hy2 (Nat.not_lt.2 (window_tick_aux interval a t0 x y h hx1))
  · exact h
  · exact absurd hx2 (Nat.not_lt.2 (window_tick_aux interval a t0 y x h hy1))

/-- The limiter's steady state: once the first call has run at `t0` the state
after call number `q * limit + r` is `⟨t0 + interval * q, r + 1⟩`, and the
remaining calls of a batch run `limit` per tick, one tick per interval. -/
theorem throttleTimes_steady (limit interval t0 : Nat) (hl : 0 < limit) :
    ∀ (n q r : Nat), r + 1 ≤ limit →
      throttleTimes limit interval t0 n ⟨t0 + interval * q, r + 1⟩ =
        (List.range n).map fun i => t0 + interval * (q + (r + 1 + i) / limit) := by
  intro n
  induction n with
  | zero => intro q r hr; rfl
  | succ k ih =>
    intro q r hr
    by_cases hlt : r + 1 < limit
    · have hdelay : windowedDelay limit interval t0 ⟨t0 + interval * q, r + 1⟩ =
          (interval * q, ⟨t0 + interval * q, r + 2⟩) := by
        simp only [windowedDelay]
        rw [show t0 - (t0 + interval * q) = 0 by omega, if_neg (by omega), if_pos hlt,
          show t0 + interval * q - t0 = interval * q by omega]
      simp only [throttleTimes, hdelay]
      rw [List.range_succ_eq_map, List.map_cons, List.map_map]
      congr 1
      · rw [Nat.div_eq_of_lt (show r + 1 + 0 < limit by omega)]
        ring
      · rw [ih q (r + 1) (by omega)]
        apply List.map_congr_left
        intro i _
        simp only [Function.comp, Nat.succ_eq_add_one]
        rw [show r + 1 + (i + 1) = r + 1 + 1 + i from by omega]
    · have hr' : r + 1 = limit := by omega
      have hdelay : windowedDelay limit interval t0 ⟨t0 + interval * q, r + 1⟩ =
          (interval * q + interval, ⟨t0 + interval * q + interval, 1⟩) := by
        simp only [windowedDelay]
        rw [show t0 - (t0 + interval * q) = 0 by omega, if_neg (by omega), if_neg hlt,
          show t0 + interval * q + interval - t0 = interval * q + interval by omega]
      simp only [throttleTimes, hdelay]
      rw [List.range_succ_eq_map, List.map_cons, List.map_map]
      congr 1
      · rw [show r + 1 + 0 = limit by omega, Nat.div_self hl]
        ring
      · have hstate : (⟨t0 + interval * q + interval, 1⟩ : ThrottleState) =
            ⟨t0 + interval * (q + 1), 0 + 1⟩ := by
          have h : t0 + interval * q + interval = t0 + interval * (q + 1) := by ring
          rw [h]
        rw [hstate, ih (q + 1) 0 (by omega)]
        apply List.map_congr_left
        intro i _
        simp only [Function.comp, Nat.succ_eq_add_one]
        have hdiv : (r + 1 + (i + 1)) / limit = (0 + 1 + i) / limit + 1 := by
          rw [show r + 1 + (i + 1) = (0 + 1 + i) + limit from by omega,
            Nat.add_div_right _ hl]
        rw [hdiv]
        ring

/-- Closed form of the batch schedule: with a positive limit and a clock time
past the first interval (always true for a real clock), call number `i` of a
batch submitted at `t0` runs at `t0 + interval * (i / limit)`. -/
theorem throttleTimes_closed (limit interval t0 : Nat) (hl : 0 < limit)
    (ht : interval < t0) (n : Nat) :
    throttleTimes limit interval t0 n ⟨0, 0⟩ =
      (List.range n).map fun i => t0 + interval * (i / limit) := by
  cases n with
  | zero => rfl
  | succ k =>
    have hdelay : windowedDelay limit interval t0 ⟨0, 0⟩ = (0, ⟨t0, 1⟩) := by
      simp only [windowedDelay]
      rw [if_pos (by omega)]
    simp only [throttleTimes, hdelay]
    rw [List.range_succ_eq_map, List.map_cons, List.map_map]
    congr 1
    · rw [Nat.zero_div]
      ring
    · have hstate : (⟨t0, 1⟩ : ThrottleState) = ⟨t0 + interval * 0, 0 + 1⟩ := by
        have h : t0 + interval * 0 = t0 := by ring
        rw [h]
      rw [hstate, throttleTimes_steady limit interval t0 hl k 0 0 hl]
      apply List.map_congr_left
      intro i _
      simp only [Function.comp, Nat.succ_eq_add_one, Nat.zero_add]
      rw [Nat.add_comm 1 i]

/-- At most `limit` of the scheduled batch times fall into any window
`a ≤ t < a + interval`: all such times belong to one tick group, and a tick
group holds at most `limit` calls. -/
theorem throttle_window_bound (limit interval t0 n a : Nat) (hl : 0 < limit) :
    ((((List.range n).map fun i => t0 + interval * (i / limit)).filter fun t =>
      decide (a ≤ t ∧ t < a + interval)).length ≤ limit) := by
  rw [List.filter_map]
  rw [List.length_map]
  set p : Nat → Bool := fun i =>
    ((fun t => decide (a ≤ t ∧ t < a + interval)) ∘ fun i => t0 + interval * (i / limit)) i
    with hp
  by_cases hne : (List.range n).filter p = []
  · rw [hne]
    exact Nat.zero_le _
  · obtain ⟨i₀, hi₀⟩ := List.exists_mem_of_ne_nil _ hne
    have hpi₀ := List.of_mem_filter hi₀
    simp only [hp, Function.comp, decide_eq_true_eq] at hpi₀
    have hall : ∀ i ∈ (List.range n).filter p, i / limit = i₀ / limit := by
      intro i hi
      have hpi := List.of_mem_filter hi
      simp only [hp, Function.comp, decide_eq_true_eq] at hpi
      exact window_same_tick interval a t0 _ _ hpi.1 hpi.2 hpi₀.1 hpi₀.2
    have hnodup : ((List.range n).filter p).Nodup := (List.nodup_range n).filter p
    have hsub : ((List.range n).filter p).toFinset ⊆
        Finset.Ico (i₀ / limit * limit) (i₀ / limit * limit + limit) := by
      intro i hi
      have hi' := List.mem_toFinset.1 hi
      have hdiv := hall i hi'
      rw [Finset.mem_Ico]
      refine ⟨?_, ?_⟩
      · calc i₀ / limit * limit = i / limit * limit := by rw [hdiv]
          _ ≤ i := Nat.div_mul_le_self i limit
      · have hmod : i % limit < limit := Nat.mod_lt i hl
        have key : i < i / limit * limit + limit := by
          calc i = limit * (i / limit) + i % limit := (Nat.div_add_mod i limit).symm
            _ < limit * (i / limit) + limit := Nat.add_lt_add_left hmod _
            _ = i / limit * limit + limit := by rw [Nat.mul_comm]
        rw [hdiv] at key
        exact key
    have hlen : ((List.range n).filter p).length =
        ((List.range n).filter p).toFinset.card :=
      (List.toFinset_card_of_nodup hnodup).symm
    have hc := Finset.card_le_card hsub
    rw [Nat.card_Ico, Nat.add_sub_cancel_left] at hc
    rw [hlen]
    exact hc

/-- In a duplicate-free recipient list each recipient's address occurs exactly
once among the mapped `some` addresses. -/
theorem count_map_some_one {l : List String} (hnd : l.Nodup) {e : String} (he : e ∈ l) :
    (l.map some).count (some e) = 1 := by
  induction l with
  | nil => cases he
  | cons x xs ih =>
    rcases List.mem_cons.1 he with rfl | hmem
    · have hx : e ∉ xs := (List.nodup_cons.1 hnd).1
      have hzero : (xs.map some).count (some e) = 0 := by
        rw [List.count_eq_zero]
        intro hmem'
        exact hx (by simpa using hmem')
      simp [List.count_cons, hzero]
    · have hx : x ∉ xs := (List.nodup_cons.1 hnd).1
      have hne : x ≠ e := fun h => hx (h ▸ hmem)
      have hone := ih (List.nodup_cons.1 hnd).2 hmem
      simp [List.count_cons, hone, hne]

/-- The per-recipient options attempted by `sendMails`, in submission order. -/
theorem sendMails_attempted_snd (proc : Processor) (transport : Transport)
    (options : MailOptions) (emails : List String) (t0 : Nat) :
    (sendMails proc transport options emails t0).attempted.map Prod.snd =
      emails.map fun email => { options with toAddr := some email } := by
  unfold sendMails
  rw [List.map_snd_zip]
  rw [List.length_map, throttleTimes_length]

/-- The schedule of the attempts made by `sendMails`. -/
theorem sendMails_attempted_fst (proc : Processor) (transport : Transport)
    (options : MailOptions) (emails : List String) (t0 : Nat) :
    (sendMails proc transport options emails t0).attempted.map Prod.fst =
      throttleTimes proc.concurrencyLimit proc.throttleInterval t0 emails.length ⟨0, 0⟩ := by
  unfold sendMails
  rw [List.map_fst_zip]
  rw [List.length_map, throttleTimes_length]

/-! C1: plain-strategy rendering. -/

/-- C1 counterexample: for a payload with only a title, the Plain strategy
produces the HTML body `<p></p>`, not the empty string the claim asserts. -/
theorem c1_plain_counterexample :
    (plainMailOptions procPlain notifTitleOnly).html = some "<p></p>" ∧
      (plainMailOptions procPlain notifTitleOnly).html ≠ some "" := by
  exact ⟨rfl, by decide⟩

/-- C1 (amended): for every notification, the Plain strategy's subject is the
payload title, and the text and HTML bodies join the included parts (the
description then the link, each included exactly when present and non-empty)
with a blank line respectively `<br/>` inside `<p>`/`</p>` — covering all four
payload shapes: both parts, description only, link only, neither (where the
text body is `""` and the HTML body is `<p></p>`). -/
theorem c1_plain_rendering (proc : Processor) (n : Notification) :
    (plainMailOptions proc n).subject = n.payload.title ∧
    (∀ d l, n.payload.description = some d → d ≠ "" →
      n.payload.link = some l → l ≠ "" →
      (plainMailOptions proc n).text = some (d ++ "\n\n" ++ l) ∧
      (plainMailOptions proc n).html = some ("<p>" ++ d ++ "<br/>" ++ l ++ "</p>")) ∧
    (∀ d, n.payload.description = some d → d ≠ "" →
      (n.payload.link = none ∨ n.payload.link = some "") →
      (plainMailOptions proc n).text = some d ∧
      (plainMailOptions proc n).html = some ("<p>" ++ d ++ "</p>")) ∧
    (∀ l, (n.payload.description = none ∨ n.payload.description = some "") →
      n.payload.link = some l → l ≠ "" →
      (plainMailOptions proc n).text = some l ∧
      (plainMailOptions proc n).html = some ("<p>" ++ l ++ "</p>")) ∧
    ((n.payload.description = none ∨ n.payload.description = some "") →
      (n.payload.link = none ∨ n.payload.link = some "") →
      (plainMailOptions proc n).text = some "" ∧
      (plainMailOptions proc n).html = some "<p></p>") := by
  refine ⟨rfl, fun d l hd hd' hl hl' => ?_, fun d hd hd' hl => ?_,
    fun l hd hl hl' => ?_, fun hd hl => ?_⟩
  · have hparts : contentParts n.payload = [d, l] := by
      simp [contentParts, strTruthy, hd, hl, hd', hl']
    constructor <;>
      simp [plainMailOptions, hparts, String.intercalate, String.intercalate.go,
        String.append_assoc]
  · have hparts : contentParts n.payload = [d] := by
      rcases hl with h | h <;> simp [contentParts, strTruthy, hd, hd', h]
    constructor <;>
      simp [plainMailOptions, hparts, String.intercalate, String.intercalate.go]
  · have hparts : contentParts n.payload = [l] := by
      rcases hd with h | h <;> simp [contentParts, strTruthy, hl, hl', h]
    constructor <;>
      simp [plainMailOptions, hparts, String.intercalate, String.intercalate.go]
  · have hparts : contentParts n.payload = [] := by
      rcases hd with h | h <;> rcases hl with h' | h' <;>
        simp [contentParts, strTruthy, h, h']
    constructor <;>
      simp [plainMailOptions, hparts, String.intercalate]

/-- C1 witness: the amended rendering equations evaluated on the full payload,
on a description-only payload and on the title-only payload. -/
theorem c1_plain_rendering_witness :
    ((plainMailOptions procPlain notifTDL).text = some "D\n\nL" ∧
      (plainMailOptions procPlain notifTDL).html = some "<p>D<br/>L</p>") ∧
    ((plainMailOptions procPlain ⟨"n4", none, ⟨"T", some "D", none⟩⟩).text = some "D" ∧
      (plainMailOptions procPlain ⟨"n4", none, ⟨"T", some "D", none⟩⟩).html =
        some "<p>D</p>") ∧
    ((plainMailOptions procPlain notifTitleOnly).text = some "" ∧
      (plainMailOptions procPlain notifTitleOnly).html = some "<p></p>") ∧
    (plainMailOptions procPlain notifTitleOnly).subject = "T" :=
  ⟨(c1_plain_rendering procPlain notifTDL).2.1 "D" "L" rfl (by decide) rfl (by decide),
    (c1_plain_rendering procPlain ⟨"n4", none, ⟨"T", some "D", none⟩⟩).2.2.1 "D" rfl
      (by decide) (Or.inl rfl),
    (c1_plain_rendering procPlain notifTitleOnly).2.2.2.2 (Or.inl rfl) (Or.inl rfl),
    (c1_plain_rendering procPlain notifTitleOnly).1⟩

/-! C2: broadcast-versus-targeted routing. -/

/-- C2: recipient resolution takes the broadcast path exactly when the send
options request a broadcast or the notification's user reference is null, and
otherwise resolves the notification's user reference. -/
theorem c2_recipient_routing (proc : Processor) (auth : Except String String)
    (catalog : FallibleCatalog) (cache : Option CacheState) (n : Notification)
    (o : SendOptions) (now : Nat) :
    ((o.recipientsType = RecipientsType.broadcast ∨ n.user = none) →
      getRecipientEmails proc auth catalog cache n o now =
        getBroadcastEmails proc auth catalog cache now) ∧
    (∀ u, o.recipientsType ≠ RecipientsType.broadcast → n.user = some u →
      getRecipientEmails proc auth catalog cache n o now =
        getUserEmail proc auth catalog cache u now) := by
  obtain ⟨rt⟩ := o
  cases rt <;> cases hu : n.user <;>
    simp [getRecipientEmails, hu]

/-- C2 witness: a targeted send option together with a null user still routes
to the broadcast path. -/
theorem c2_recipient_routing_witness :
    getRecipientEmails procPlain authOk catalogSample none ⟨"n3", none, payloadTDL⟩
        ⟨RecipientsType.entity⟩ 0 =
      getBroadcastEmails procPlain authOk catalogSample none 0 :=
  (c2_recipient_routing procPlain authOk catalogSample none ⟨"n3", none, payloadTDL⟩
    ⟨RecipientsType.entity⟩ 0).1 (Or.inr rfl)

/-! C3: template-strategy rendering. -/

/-- C3 counterexample: with a template renderer that provides no `getSubject`
accessor, the subject is the payload title, not absent or empty as claimed. -/
theorem c3_subject_counterexample :
    (templateMailOptions procTemplateEmpty notifTitleOnly).subject = "T" ∧
      (templateMailOptions procTemplateEmpty notifTitleOnly).subject ≠ "" := by
  exact ⟨rfl, by decide⟩

/-- C3 (amended): with the Template strategy each provided accessor is invoked
with the notification for its field; a missing `getHtml` or `getText` leaves
that body absent, while a missing `getSubject` falls back to the payload
title. -/
theorem c3_template_rendering (proc : Processor) (r : NotificationTemplateRenderer)
    (n : Notification) (hr : proc.templateRenderer = some r) :
    (∀ f, r.getSubject = some f → (templateMailOptions proc n).subject = f n) ∧
    (r.getSubject = none → (templateMailOptions proc n).subject = n.payload.title) ∧
    (∀ f, r.getHtml = some f → (templateMailOptions proc n).html = some (f n)) ∧
    (r.getHtml = none → (templateMailOptions proc n).html = none) ∧
    (∀ f, r.getText = some f → (templateMailOptions proc n).text = some (f n)) ∧
    (r.getText = none → (templateMailOptions proc n).text = none) := by
  refine ⟨fun f hf => ?_, fun hf => ?_, fun f hf => ?_, fun hf => ?_,
    fun f hf => ?_, fun hf => ?_⟩ <;>
    simp [templateMailOptions, hr, hf]

/-- C3 witness: the HTML-only renderer yields the rendered HTML, the fallback
subject and no text body. -/
theorem c3_template_rendering_witness :
    (templateMailOptions procTemplate notifTitleOnly).subject = "T" ∧
    (templateMailOptions procTemplate notifTitleOnly).html = some "<b>T</b>" ∧
    (templateMailOptions procTemplate notifTitleOnly).text = none := by
  have h := c3_template_rendering procTemplate rendererHtmlOnly notifTitleOnly rfl
  exact ⟨h.2.1 rfl, (h.2.2.1 _ rfl).trans rfl, h.2.2.2.2.2 rfl⟩

/-! C4: negative caching of targeted resolution. -/

/-- C4: when the fetched entity yields no email (absent entity or absent
profile email), targeted resolution returns the empty set after one directory
query, writes the empty set to the cache with expiry `now + cacheTtl`, and a
later resolution of the same reference before that expiry returns the cached
empty set with no directory query (and without touching the credentials
`auth₂`). -/
theorem c4_negative_caching (proc : Processor) (auth auth₂ : Except String String)
    (catalog : FallibleCatalog) (cs : CacheState) (ref tok : String)
    (ent : Option UserEntity) (now now₂ : Nat)
    (hauth : auth = .ok tok)
    (hmiss : cacheGet cs ("user-emails:" ++ ref) now = none)
    (hent : catalog.getEntityByRef ref = .ok ent)
    (hempty : entityEmails ent = [])
    (httl : now₂ < now + proc.cacheTtl) :
    getUserEmail proc auth catalog (some cs) ref now =
      .ok ⟨[], some (⟨"user-emails:" ++ ref, [], now + proc.cacheTtl⟩ :: cs), 1⟩ ∧
    getUserEmail proc auth₂ catalog
        (some (⟨"user-emails:" ++ ref, [], now + proc.cacheTtl⟩ :: cs)) ref now₂ =
      .ok ⟨[], some (⟨"user-emails:" ++ ref, [], now + proc.cacheTtl⟩ :: cs), 0⟩ := by
  constructor
  · simp [getUserEmail, ocacheGet, hmiss, hauth, hent, hempty, ocacheSet, cacheSet]
  · simp [getUserEmail, ocacheGet, cacheGet, List.find?, httl]

/-- C4 witness: the user `alice` exists without a profile email; resolving her
at time 0 caches the empty set until 3600000, and resolving again at time 5
hits the cache. -/
theorem c4_negative_caching_witness :
    getUserEmail procPlain authOk catalogSample (some []) "user:default/alice" 0 =
      .ok ⟨[], some [⟨"user-emails:user:default/alice", [], 3600000⟩], 1⟩ ∧
    getUserEmail procPlain authFail catalogSample
        (some [⟨"user-emails:user:default/alice", [], 3600000⟩]) "user:default/alice" 5 =
      .ok ⟨[], some [⟨"user-emails:user:default/alice", [], 3600000⟩], 0⟩ :=
  c4_negative_caching procPlain authOk authFail catalogSample [] "user:default/alice"
    "token" (some ⟨⟨some ⟨none⟩⟩⟩) 0 5 rfl rfl rfl rfl (by decide)

/-! C5: per-recipient failure isolation in dispatch. -/

/-- C5: dispatch attempts every recipient exactly in list order whatever the
transport outcomes are, and a transport error for one recipient surfaces only
as a log line naming the failing address; `sendMails` returns an outcome, not
an exception. -/
theorem c5_dispatch_isolation (proc : Processor) (transport : Transport)
    (options : MailOptions) (emails : List String) (t0 : Nat) :
    ((sendMails proc transport options emails t0).attempted.map Prod.snd =
      emails.map fun email => { options with toAddr := some email }) ∧
    (∀ email err, email ∈ emails →
      transport { options with toAddr := some email } = .error err →
      ("Failed to send email to " ++ email ++ ": " ++ err) ∈
        (sendMails proc transport options emails t0).logs) := by
  refine ⟨sendMails_attempted_snd proc transport options emails t0, ?_⟩
  intro email err hmem herr
  unfold sendMails
  simp only [List.mem_flatten, List.mem_map]
  refine ⟨sendMail transport { options with toAddr := some email },
    ⟨{ options with toAddr := some email }, ⟨email, hmem, rfl⟩, rfl⟩, ?_⟩
  simp [sendMail, herr]

/-- C5 witness: with a transport that rejects every mail, both recipients are
still attempted and the failure for the first is logged with its address. -/
theorem c5_dispatch_isolation_witness :
    ((sendMails procPlain transportFail mailW ["a@x.com", "b@x.com"] 200).attempted.map
        Prod.snd =
      [{ mailW with toAddr := some "a@x.com" }, { mailW with toAddr := some "b@x.com" }]) ∧
    ("Failed to send email to a@x.com: connection refused" ∈
      (sendMails procPlain transportFail mailW ["a@x.com", "b@x.com"] 200).logs) := by
  have h := c5_dispatch_isolation procPlain transportFail mailW ["a@x.com", "b@x.com"] 200
  exact ⟨h.1, h.2 "a@x.com" "connection refused" (by decide) rfl⟩

/-! C6: throttled dispatch obeys the rate limit and attempts everyone once. -/

/-- C6: for every dispatch call — any positive concurrency limit, any
throttle interval, any recipient list, any clock time past the first
interval — at most `concurrencyLimit` sends are scheduled inside any rolling
window of `throttleInterval` milliseconds, the attempted addresses are exactly
the recipient list in order, and with distinct recipients each one is
attempted exactly once. -/
theorem c6_throttle_window (proc : Processor) (transport : Transport)
    (options : MailOptions) (emails : List String) (t0 : Nat)
    (hl : 0 < proc.concurrencyLimit)
    (ht : proc.throttleInterval < t0) :
    (∀ a : Nat,
      (((sendMails proc transport options emails t0).attempted.map Prod.fst).filter
        fun t => decide (a ≤ t ∧ t < a + proc.throttleInterval)).length ≤
        proc.concurrencyLimit) ∧
    ((sendMails proc transport options emails t0).attempted.map fun p => p.2.toAddr) =
      emails.map some ∧
    (emails.Nodup → ∀ e ∈ emails,
      ((sendMails proc transport options emails t0).attempted.map
        fun p => p.2.toAddr).count (some e) = 1) := by
  have hfst := sendMails_attempted_fst proc transport options emails t0
  have hsnd := sendMails_attempted_snd proc transport options emails t0
  have hmap : ((sendMails proc transport options emails t0).attempted.map
      fun p => p.2.toAddr) = emails.map some := by
    have h1 : ((sendMails proc transport options emails t0).attempted.map
        fun p => p.2.toAddr) =
        ((sendMails proc transport options emails t0).attempted.map Prod.snd).map
          MailOptions.toAddr := by
      rw [List.map_map]
      rfl
    rw [h1, hsnd, List.map_map]
    rfl
  refine ⟨fun a => ?_, hmap, fun hnd e he => ?_⟩
  · rw [hfst, throttleTimes_closed proc.concurrencyLimit proc.throttleInterval t0 hl ht]
    exact throttle_window_bound proc.concurrencyLimit proc.throttleInterval t0
      emails.length a hl
  · rw [hmap]
    exact count_map_some_one hnd he

/-- C6 witness: five distinct recipients dispatched at clock time 101 with the
default limiter (limit 2, interval 100 ms); the window starting at 150 holds
at most two sends and the third recipient is attempted exactly once. -/
theorem c6_throttle_window_witness :
    ((((sendMails procPlain transportOk mailW
          ["a@x.com", "b@x.com", "c@x.com", "d@x.com", "e@x.com"] 101).attempted.map
        Prod.fst).filter fun t => decide (150 ≤ t ∧ t < 150 + 100)).length ≤ 2) ∧
    (((sendMails procPlain transportOk mailW
        ["a@x.com", "b@x.com", "c@x.com", "d@x.com", "e@x.com"] 101).attempted.map
      fun p => p.2.toAddr).count (some "c@x.com") = 1) := by
  have h := c6_throttle_window procPlain transportOk mailW
    ["a@x.com", "b@x.com", "c@x.com", "d@x.com", "e@x.com"] 101 (by decide) (by decide)
  exact ⟨h.1 150, h.2.2 (by decide) "c@x.com" (by decide)⟩

/-! C7: empty resolved recipient set. -/

/-- C7: when recipient resolution yields an empty set, `postProcess` logs a
single informational line, makes no send attempt, produces no error log and
returns normally. -/
theorem c7_skip_empty (proc : Processor) (auth : Except String String)
    (catalog : FallibleCatalog) (transport : Transport) (cache : Option CacheState)
    (n : Notification) (o : SendOptions) (now t0 : Nat) (r : ResolveOut)
    (hres : getRecipientEmails proc auth catalog cache n o now = .ok r)
    (hempty : r.emails = []) :
    postProcess proc auth catalog transport cache n o now t0 =
      { outcome := ⟨[], []⟩
        errorLogs := []
        infoLogs := ["No email recipients found for notification: " ++ n.id ++ ", skipping"]
        cache := r.cache
        directoryQueries := r.directoryQueries } := by
  simp [postProcess, hres, hempty]

/-- C7 witness: with no broadcast section a broadcast send resolves to the
empty set, and `postProcess` only logs the skip. -/
theorem c7_skip_empty_witness :
    postProcess procPlain authOk catalogSample transportOk none notifTDL
        ⟨RecipientsType.broadcast⟩ 0 7 =
      { outcome := ⟨[], []⟩
        errorLogs := []
        infoLogs := ["No email recipients found for notification: n1, skipping"]
        cache := none
        directoryQueries := 0 } :=
  c7_skip_empty procPlain authOk catalogSample transportOk none notifTDL
    ⟨RecipientsType.broadcast⟩ 0 7 ⟨[], none, 0⟩ rfl rfl

/-! C8: resolution failure handling. -/

/-- C8: when recipient resolution fails, `postProcess` catches the error,
logs it, attempts no send and returns normally with the cache untouched. -/
theorem c8_resolution_failure (proc : Processor) (auth : Except String String)
    (catalog : FallibleCatalog) (transport : Transport) (cache : Option CacheState)
    (n : Notification) (o : SendOptions) (now t0 : Nat) (e : String)
    (herr : getRecipientEmails proc auth catalog cache n o now = .error e) :
    postProcess proc auth catalog transport cache n o now t0 =
      { outcome := ⟨[], []⟩
        errorLogs := ["Failed to resolve recipient emails: " ++ e]
        infoLogs := []
        cache := cache
        directoryQueries := 0 } := by
  simp [postProcess, herr]

/-- C8 witness: failing credential acquisition on a broadcast `users`
resolution is logged and ends the call with no send. -/
theorem c8_resolution_failure_witness :
    postProcess procBroadcastUsers authFail catalogSample transportOk none notifTDL
        ⟨RecipientsType.broadcast⟩ 0 7 =
      { outcome := ⟨[], []⟩
        errorLogs := ["Failed to resolve recipient emails: credential failure"]
        infoLogs := []
        cache := none
        directoryQueries := 0 } :=
  c8_resolution_failure procBroadcastUsers authFail catalogSample transportOk none
    notifTDL ⟨RecipientsType.broadcast⟩ 0 7 "credential failure" rfl

/-! C9: unset broadcast receiver key. -/

/-- C9 counterexample: with a broadcast section present but its `receiver` key
unset, broadcast resolution raises a configuration error instead of behaving
like receiver mode `none`. -/
theorem c9_unset_receiver_counterexample :
    getBroadcastEmails procBroadcastNoReceiver authOk catalogSample none 0 =
      .error "Missing required config value at broadcastConfig.receiver" ∧
    getBroadcastEmails procBroadcastNoReceiver authOk catalogSample none 0 ≠
      .ok ⟨[], none, 0⟩ := by
  refine ⟨rfl, fun h => ?_⟩
  rw [show getBroadcastEmails procBroadcastNoReceiver authOk catalogSample none 0 =
    .error "Missing required config value at broadcastConfig.receiver" from rfl] at h
  cases h

/-- C9 (amended): when the whole broadcast section is unset, broadcast
resolution behaves exactly like receiver mode `none` — empty set, cache and
directory untouched, no error; but when the section is present its `receiver`
key is required, and resolution fails when it is unset. -/
theorem c9_broadcast_receiver_modes (proc proc' : Processor) (bc : BroadcastConfig)
    (auth : Except String String) (catalog : FallibleCatalog)
    (cache : Option CacheState) (now : Nat)
    (h : proc.broadcastConfig = none) (h' : proc'.broadcastConfig = some bc) :
    getBroadcastEmails proc auth catalog cache now = .ok ⟨[], cache, 0⟩ ∧
    (bc.receiver = some "none" →
      getBroadcastEmails proc' auth catalog cache now = .ok ⟨[], cache, 0⟩) ∧
    (bc.receiver = none →
      getBroadcastEmails proc' auth catalog cache now =
        .error "Missing required config value at broadcastConfig.receiver") := by
  refine ⟨?_, fun hr => ?_, fun hr => ?_⟩
  · simp [getBroadcastEmails, h]
  · simp [getBroadcastEmails, h', hr]
  · simp [getBroadcastEmails, h', hr]

/-- C9 witness: the unset-section and receiver-`none` behaviours coincide, and
the present-section-without-receiver case errors. -/
theorem c9_broadcast_receiver_modes_witness :
    getBroadcastEmails procPlain authOk catalogSample none 0 = .ok ⟨[], none, 0⟩ ∧
    getBroadcastEmails procBroadcastNoReceiver authOk catalogSample none 0 =
      .error "Missing required config value at broadcastConfig.receiver" := by
  have h := c9_broadcast_receiver_modes procPlain procBroadcastNoReceiver
    ⟨none, some ["a@example.com"]⟩ authOk catalogSample none 0 rfl rfl
  exact ⟨h.1, h.2.2 rfl⟩

/-! C10: resolution without a cache capability. -/

/-- C10: with no cache service supplied, targeted resolution and `users`-mode
broadcast resolution both query the directory afresh, the cache write is a
no-op (the cache stays absent), and the returned emails equal the
directory-derived set — the same emails a cache miss would produce. -/
theorem c10_no_cache (proc : Processor) (auth : Except String String)
    (catalog : FallibleCatalog) (bc : BroadcastConfig) (ref tok : String)
    (ent : Option UserEntity) (entities : List UserEntity) (now : Nat)
    (hauth : auth = .ok tok)
    (hent : catalog.getEntityByRef ref = .ok ent)
    (husers : catalog.usersWithEmail = .ok entities)
    (hbc : proc.broadcastConfig = some bc)
    (hrecv : bc.receiver = some "users") :
    getUserEmail proc auth catalog none ref now = .ok ⟨entityEmails ent, none, 1⟩ ∧
    getBroadcastEmails proc auth catalog none now =
      .ok ⟨broadcastDerivedEmails entities, none, 1⟩ ∧
    (∀ cs : CacheState, cacheGet cs ("user-emails:" ++ ref) now = none →
      Except.map ResolveOut.emails (getUserEmail proc auth catalog (some cs) ref now) =
        Except.map ResolveOut.emails (getUserEmail proc auth catalog none ref now)) ∧
    (∀ cs : CacheState, cacheGet cs "user-emails:all" now = none →
      Except.map ResolveOut.emails (getBroadcastEmails proc auth catalog (some cs) now) =
        Except.map ResolveOut.emails (getBroadcastEmails proc auth catalog none now)) := by
  refine ⟨?_, ?_, fun cs hcs => ?_, fun cs hcs => ?_⟩
  · simp [getUserEmail, ocacheGet, ocacheSet, hauth, hent]
  · simp [getBroadcastEmails, ocacheGet, ocacheSet, hauth, husers, hbc, hrecv]
  · simp [getUserEmail, ocacheGet, ocacheSet, hauth, hent, hcs, Except.map]
  · simp [getBroadcastEmails, ocacheGet, ocacheSet, hauth, husers, hbc, hrecv, hcs,
      Except.map]

/-- C10 witness: without a cache, resolving `alice` and the broadcast user
query both hit the directory once and return the directory-derived emails. -/
theorem c10_no_cache_witness :
    getUserEmail procBroadcastUsers authOk catalogSample none "user:default/alice" 0 =
      .ok ⟨[], none, 1⟩ ∧
    getBroadcastEmails procBroadcastUsers authOk catalogSample none 0 =
      .ok ⟨["a@example.com"], none, 1⟩ := by
  have h := c10_no_cache procBroadcastUsers authOk catalogSample ⟨some "users", none⟩
    "user:default/alice" "token" (some ⟨⟨some ⟨none⟩⟩⟩) [⟨⟨some ⟨some "a@example.com"⟩⟩⟩]
    0 rfl rfl rfl rfl rfl
  exact ⟨h.1, (h.2.1).trans (by rfl)⟩

end NotificationsEmail
